import Mathlib

/-
Verification of the mail rendering mixin (addons/mail/models/mail_render_mixin.py).

The Python module provides a batch template renderer built on a sandboxed
jinja2 environment, a placeholder-expression builder, and a link-rewriting
post-processing step.  We embed the rendering-relevant logic shallowly:

  * Python dicts keyed by record ids become association lists with Python
    dict semantics (insertion order, in-place overwrite on reassignment);
  * the external collaborators (jinja2 compilation and per-record rendering,
    the record store browse, the link rewriter) become parameters;
  * record identifiers are `Option Nat`, with `none` standing for Python
    `None` appearing in a `res_ids` list;
  * exceptions become `Except` error values.
-/

set_option autoImplicit false

namespace MailRender

/-! ## Python dict model (association lists with dict semantics) -/

/-- `d[k] = v` on a Python dict: overwrite in place if the key is present,
append otherwise (insertion order preserved). -/
def dictSet {α β : Type} [DecidableEq α] : List (α × β) → α → β → List (α × β)
  | [], k, v => [(k, v)]
  | (k1, v1) :: rest, k, v =>
    if k1 = k then (k, v) :: rest else (k1, v1) :: dictSet rest k v

/-- `d.get(k)` on a Python dict. -/
def dictLookup {α β : Type} [DecidableEq α] : List (α × β) → α → Option β
  | [], _ => none
  | (k1, v1) :: rest, k => if k1 = k then some v1 else dictLookup rest k

/-- The keys of a dict, in order. -/
def dictKeys {α β : Type} (d : List (α × β)) : List α :=
  d.map Prod.fst

/-- `dict.fromkeys(ks, v)`: successive insertion of every key, all bound to
the same value. -/
def dictFromKeys {α β : Type} [DecidableEq α] (ks : List α) (v : β) : List (α × β) :=
  ks.foldl (fun d k => dictSet d k v) []

/-! ## Data model of the renderer -/

/-- Errors raised by the rendering entry points: `ValueError` for caller
errors, `UserError` for the user-facing per-record rendering failure. -/
inductive RenderError : Type
  | valueError (msg : String)
  | userError (msg : String)
deriving DecidableEq

/-- The external collaborators of `_render_template_jinja`, abstracted:
`compile` is `jinja_env.from_string` (`none` models the `except Exception`
branch), `renderRec` is `template.render(variables)` with `object` bound to
the given record (an `Except` error models a raised exception carrying its
message), and `fetch` is the record lookup behind `self.env[model].browse`. -/
structure RenderEngine (T R : Type) : Type where
  compile : String → Option T
  renderRec : T → R → Except String String
  fetch : String → Option Nat → R

/-- The `render_result == u"False"` collapse at the end of the per-record
loop of `_render_template_jinja`. -/
def collapseFalse (r : String) : String :=
  if r = "False" then "" else r

/-- The per-record loop of `_render_template_jinja`: for each record in
browse order, render the template, raising `UserError` with the underlying
message on failure, otherwise storing the (false-collapsed) result under the
record id. -/
def renderLoop {T R : Type} (eng : RenderEngine T R) (tmpl : T) (model : String) :
    List (Option Nat) → List (Option Nat × String) →
    Except RenderError (List (Option Nat × String))
  | [], results => .ok results
  | id :: rest, results =>
    match eng.renderRec tmpl (eng.fetch model id) with
    | .error e => .error (.userError ("Failed to render template : " ++ e))
    | .ok r => renderLoop eng tmpl model rest (dictSet results id (collapseFalse r))

/-- Outcome of `_render_template_jinja` when it returns: the results dict
and the messages logged along the way. -/
structure JinjaOutcome : Type where
  results : List (Option Nat × String)
  log : List String
deriving DecidableEq

/-- `_render_template_jinja`: initialise every requested id to the empty
string, return early on an empty template, return early (logging once) when
compilation fails, raise `ValueError` when a `None` id is present, then run
the per-record loop. -/
def render_template_jinja {T R : Type} (eng : RenderEngine T R)
    (template_txt model : String) (res_ids : List (Option Nat)) :
    Except RenderError JinjaOutcome :=
  let results := dictFromKeys res_ids ""
  if template_txt = "" then .ok ⟨results, []⟩
  else
    match eng.compile template_txt with
    | none => .ok ⟨results, ["Failed to load template " ++ template_txt]⟩
    | some tmpl =>
      if none ∈ res_ids then .error (.valueError "Unsuspected None")
      else
        match renderLoop eng tmpl model res_ids results with
        | .error e => .error e
        | .ok res => .ok ⟨res, []⟩

/-- `_render_template_postprocess`: rewrite each rendered string in place
through the external link-rewriting collaborator `repl`
(`mail.thread._replace_local_links`). -/
def render_template_postprocess {κ : Type} (repl : String → String)
    (rendered : List (κ × String)) : List (κ × String) :=
  rendered.map (fun p => (p.1, repl p.2))

/-- The shape of the `res_ids` argument of `_render_template`: a proper
list, or a single scalar id (the `not isinstance(res_ids, (list, tuple))`
case). -/
inductive ResIdsArg : Type
  | list (ids : List (Option Nat))
  | scalar (id : Nat)

/-- `_render_template`, the render entry point: validate the shape of
`res_ids` and the engine selector, delegate to `_render_template_jinja`,
then optionally post-process. -/
def render_template {T R : Type} (eng : RenderEngine T R) (repl : String → String)
    (template_txt model : String) (res_ids : ResIdsArg) (engine : String)
    (post_process : Bool) : Except RenderError (List (Option Nat × String)) :=
  match res_ids with
  | .scalar _ =>
    .error (.valueError "Template rendering should be called only using on a list of IDs.")
  | .list ids =>
    if engine ≠ "jinja" then .error (.valueError "Template rendering supports only jinja.")
    else
      match render_template_jinja eng template_txt model ids with
      | .error e => .error e
      | .ok out =>
        .ok (if post_process then render_template_postprocess repl out.results
             else out.results)

/-! ## Placeholder expression builder -/

/-- Python truthiness of an optional string argument (`False`/`None` and the
empty string are falsy). -/
def pyTruthy : Option String → Bool
  | none => false
  | some s => !(s = "")

/-- `_build_expression`: build the placeholder expression for a field, an
optional sub-field and an optional default value. -/
def build_expression (field_name sub_field_name null_value : Option String) : String :=
  if pyTruthy field_name then
    let e := "$\x7bobject." ++ field_name.getD ""
    let e := if pyTruthy sub_field_name then e ++ "." ++ sub_field_name.getD "" else e
    let e := if pyTruthy null_value then
        e ++ " or \x27\x27\x27" ++ null_value.getD "" ++ "\x27\x27\x27"
      else e
    e ++ "\x7d"
  else ""

/-! ## Sandbox attribute-access policy -/

/-- Evaluation errors of the sandboxed expression evaluator. -/
inductive EvalError : Type
  | forbiddenAttribute
  | undefinedAttribute (name : String)
deriving DecidableEq

/-- An object bound into the template context, with its named attributes. -/
structure BoundObject : Type where
  attrs : List (String × String)

/-- Whether an attribute name starts with the private-marker prefix. -/
def startsWithUnderscore (name : String) : Bool :=
  match name.data with
  | [] => false
  | c :: _ => c = '_'

/-- Modelled from the spec: the attribute-access policy of the sandboxed
template environment.  The policy itself is enforced by the external
jinja2 `SandboxedEnvironment` configured at module load in
mail_render_mixin.py (not part of this repository source): only public
attributes, those not starting with an underscore, of bound objects may be
accessed; private ones are rejected with a forbidden-attribute error. -/
def getattr_sandboxed (o : BoundObject) (name : String) : Except EvalError String :=
  if startsWithUnderscore name then .error .forbiddenAttribute
  else
    match dictLookup o.attrs name with
    | some v => .ok v
    | none => .error (.undefinedAttribute name)

/-- Stated from the words of the spec, for the safe-quoting claim: the
generated placeholder text is one well-delimited template expression when it
opens with the expression-start delimiter and the expression-end delimiter
occurs exactly once, as its final character (the configured jinja variable
delimiters of mail_render_mixin.py).  A default literal whose characters
collide with the delimiters and are left unescaped breaks this. -/
def wellDelimitedExpression (s : String) : Bool :=
  match s.data with
  | '$' :: '\x7b' :: rest => (rest.count '\x7d' == 1) && (rest.getLast? == some '\x7d')
  | _ => false

/-! ## Concrete engine instances (used to evaluate the model at concrete inputs) -/

/-- An engine where every template compiles and every record renders to the
fixed string `out`. -/
def constEngine (out : String) : RenderEngine Unit (Option Nat) where
  compile := fun _ => some ()
  renderRec := fun _ _ => .ok out
  fetch := fun _ i => i

/-- An engine where rendering any record raises an exception with message
`msg`. -/
def failEngine (msg : String) : RenderEngine Unit (Option Nat) where
  compile := fun _ => some ()
  renderRec := fun _ _ => .error msg
  fetch := fun _ i => i

/-- An engine where no template compiles. -/
def noCompileEngine : RenderEngine Unit (Option Nat) where
  compile := fun _ => none
  renderRec := fun _ _ => .ok ""
  fetch := fun _ i => i

/-! ## Dict lemmas -/

theorem dictKeys_dictSet {α β : Type} [DecidableEq α] (d : List (α × β)) (k : α) (v : β) :
    dictKeys (dictSet d k v) =
      if k ∈ dictKeys d then dictKeys d else dictKeys d ++ [k] := by
  induction d with
  | nil => simp [dictSet, dictKeys]
  | cons hd tl ih =>
    obtain ⟨k1, v1⟩ := hd
    simp only [dictKeys, List.map_cons] at ih ⊢
    by_cases h : k1 = k
    · subst h
      simp [dictSet]
    · have hne : ¬ k = k1 := fun hk => h hk.symm
      simp only [dictSet, if_neg h, List.map_cons]
      rw [ih]
      by_cases hm : k ∈ tl.map Prod.fst
      · simp [hm, hne]
      · simp [hm, hne]

theorem mem_dictKeys_dictSet {α β : Type} [DecidableEq α] (d : List (α × β)) (k x : α) (v : β) :
    x ∈ dictKeys (dictSet d k v) ↔ x ∈ dictKeys d ∨ x = k := by
  rw [dictKeys_dictSet]
  by_cases h : k ∈ dictKeys d
  · simp only [if_pos h]
    constructor
    · exact fun hx => Or.inl hx
    · rintro (hx | rfl)
      · exact hx
      · exact h
  · simp [if_neg h]

theorem nodup_dictKeys_dictSet {α β : Type} [DecidableEq α] (d : List (α × β)) (k : α) (v : β)
    (h : (dictKeys d).Nodup) : (dictKeys (dictSet d k v)).Nodup := by
  rw [dictKeys_dictSet]
  by_cases hm : k ∈ dictKeys d
  · simpa [hm] using h
  · simp only [if_neg hm]
    simpa [List.nodup_append, hm] using h

theorem dictLookup_dictSet_self {α β : Type} [DecidableEq α] (d : List (α × β)) (k : α) (v : β) :
    dictLookup (dictSet d k v) k = some v := by
  induction d with
  | nil => simp [dictSet, dictLookup]
  | cons hd tl ih =>
    obtain ⟨k1, v1⟩ := hd
    by_cases h : k1 = k
    · subst h
      simp [dictSet, dictLookup]
    · simp [dictSet, if_neg h, dictLookup, ih, h]

theorem dictLookup_dictSet_ne {α β : Type} [DecidableEq α] (d : List (α × β)) (k x : α) (v : β)
    (h : x ≠ k) : dictLookup (dictSet d k v) x = dictLookup d x := by
  have hkx : ¬ k = x := fun hk => h hk.symm
  induction d with
  | nil => simp [dictSet, dictLookup, hkx]
  | cons hd tl ih =>
    obtain ⟨k1, v1⟩ := hd
    by_cases h1 : k1 = k
    · subst h1
      simp [dictSet, dictLookup, hkx]
    · by_cases h2 : k1 = x
      · subst h2
        simp [dictSet, if_neg h1, dictLookup]
      · simp [dictSet, if_neg h1, dictLookup, if_neg h2, ih]

theorem mem_dictKeys_foldl_set {α β : Type} [DecidableEq α] (v : β) :
    ∀ (ks : List α) (d : List (α × β)) (x : α),
      x ∈ dictKeys (ks.foldl (fun d k => dictSet d k v) d) ↔ x ∈ dictKeys d ∨ x ∈ ks := by
  intro ks
  induction ks with
  | nil => simp
  | cons k rest ih =>
    intro d x
    rw [List.foldl_cons, ih, mem_dictKeys_dictSet]
    simp only [List.mem_cons]
    tauto

theorem nodup_dictKeys_foldl_set {α β : Type} [DecidableEq α] (v : β) :
    ∀ (ks : List α) (d : List (α × β)), (dictKeys d).Nodup →
      (dictKeys (ks.foldl (fun d k => dictSet d k v) d)).Nodup := by
  intro ks
  induction ks with
  | nil => exact fun d h => h
  | cons k rest ih =>
    intro d h
    exact ih _ (nodup_dictKeys_dictSet d k v h)

theorem dictLookup_foldl_set {α β : Type} [DecidableEq α] (v : β) :
    ∀ (ks : List α) (d : List (α × β)) (x : α),
      dictLookup (ks.foldl (fun d k => dictSet d k v) d) x =
        if x ∈ ks then some v else dictLookup d x := by
  intro ks
  induction ks with
  | nil => simp
  | cons k rest ih =>
    intro d x
    rw [List.foldl_cons, ih]
    by_cases hr : x ∈ rest
    · simp [hr]
    · by_cases hk : x = k
      · subst hk
        simp [hr, dictLookup_dictSet_self]
      · simp [hr, hk, dictLookup_dictSet_ne d k x v hk]

theorem mem_dictKeys_dictFromKeys {α β : Type} [DecidableEq α] (ks : List α) (v : β) (x : α) :
    x ∈ dictKeys (dictFromKeys ks v) ↔ x ∈ ks := by
  rw [dictFromKeys, mem_dictKeys_foldl_set]
  simp [dictKeys]

theorem nodup_dictKeys_dictFromKeys {α β : Type} [DecidableEq α] (ks : List α) (v : β) :
    (dictKeys (dictFromKeys ks v)).Nodup := by
  exact nodup_dictKeys_foldl_set v ks [] (by simp [dictKeys])

theorem dictLookup_dictFromKeys {α β : Type} [DecidableEq α] (ks : List α) (v : β) (x : α) :
    dictLookup (dictFromKeys ks v) x = if x ∈ ks then some v else none := by
  rw [dictFromKeys, dictLookup_foldl_set]
  by_cases h : x ∈ ks
  · simp [h]
  · simp [h, dictLookup]

/-! ## Render-loop lemmas -/

section LoopLemmas

variable {T R : Type} (eng : RenderEngine T R) (tmpl : T) (model : String)

theorem renderLoop_ok_of_all_ok :
    ∀ (ids : List (Option Nat)) (results : List (Option Nat × String)),
      (∀ i ∈ ids, ∃ r, eng.renderRec tmpl (eng.fetch model i) = .ok r) →
      ∃ res, renderLoop eng tmpl model ids results = .ok res := by
  intro ids
  induction ids with
  | nil => exact fun results _ => ⟨results, rfl⟩
  | cons id rest ih =>
    intro results hall
    obtain ⟨r, hr⟩ := hall id (List.mem_cons_self id rest)
    obtain ⟨res, hres⟩ := ih (dictSet results id (collapseFalse r))
      (fun i hi => hall i (List.mem_cons_of_mem id hi))
    exact ⟨res, by rw [renderLoop, hr]; exact hres⟩

theorem mem_dictKeys_of_renderLoop_ok :
    ∀ (ids : List (Option Nat)) (results res : List (Option Nat × String)),
      renderLoop eng tmpl model ids results = .ok res →
      ∀ x, x ∈ dictKeys res ↔ x ∈ dictKeys results ∨ x ∈ ids := by
  intro ids
  induction ids with
  | nil =>
    intro results res h x
    simp only [renderLoop, Except.ok.injEq] at h
    subst h
    simp
  | cons id rest ih =>
    intro results res h x
    rw [renderLoop] at h
    cases hr : eng.renderRec tmpl (eng.fetch model id) with
    | error e => rw [hr] at h; exact absurd h (by simp)
    | ok r =>
      rw [hr] at h
      rw [ih _ _ h x, mem_dictKeys_dictSet]
      simp only [List.mem_cons]
      tauto

theorem nodup_dictKeys_of_renderLoop_ok :
    ∀ (ids : List (Option Nat)) (results res : List (Option Nat × String)),
      renderLoop eng tmpl model ids results = .ok res →
      (dictKeys results).Nodup → (dictKeys res).Nodup := by
  intro ids
  induction ids with
  | nil =>
    intro results res h hnd
    simp only [renderLoop, Except.ok.injEq] at h
    subst h
    exact hnd
  | cons id rest ih =>
    intro results res h hnd
    rw [renderLoop] at h
    cases hr : eng.renderRec tmpl (eng.fetch model id) with
    | error e => rw [hr] at h; exact absurd h (by simp)
    | ok r =>
      rw [hr] at h
      exact ih _ _ h (nodup_dictKeys_dictSet results id (collapseFalse r) hnd)

theorem dictLookup_of_renderLoop_ok_not_mem :
    ∀ (ids : List (Option Nat)) (results res : List (Option Nat × String)) (x : Option Nat),
      renderLoop eng tmpl model ids results = .ok res → x ∉ ids →
      dictLookup res x = dictLookup results x := by
  intro ids
  induction ids with
  | nil =>
    intro results res x h _
    simp only [renderLoop, Except.ok.injEq] at h
    subst h
    rfl
  | cons id rest ih =>
    intro results res x h hx
    rw [renderLoop] at h
    cases hr : eng.renderRec tmpl (eng.fetch model id) with
    | error e => rw [hr] at h; exact absurd h (by simp)
    | ok r =>
      rw [hr] at h
      have hxr : x ∉ rest := fun hm => hx (List.mem_cons_of_mem id hm)
      have hxi : x ≠ id := fun he => hx (he ▸ List.mem_cons_self id rest)
      rw [ih _ _ x h hxr, dictLookup_dictSet_ne _ _ _ _ hxi]

theorem dictLookup_of_renderLoop_ok_mem :
    ∀ (ids : List (Option Nat)) (results res : List (Option Nat × String))
      (x : Option Nat) (r : String),
      renderLoop eng tmpl model ids results = .ok res → x ∈ ids →
      eng.renderRec tmpl (eng.fetch model x) = .ok r →
      dictLookup res x = some (collapseFalse r) := by
  intro ids
  induction ids with
  | nil =>
    intro results res x r _ hx
    exact absurd hx (List.not_mem_nil x)
  | cons id rest ih =>
    intro results res x r h hx hrender
    rw [renderLoop] at h
    cases hr : eng.renderRec tmpl (eng.fetch model id) with
    | error e => rw [hr] at h; exact absurd h (by simp)
    | ok r1 =>
      rw [hr] at h
      by_cases hxr : x ∈ rest
      · exact ih _ _ x r h hxr hrender
      · have hxi : x = id := by
          rcases List.mem_cons.mp hx with he | hm
          · exact he
          · exact absurd hm hxr
        subst hxi
        have hr1 : r1 = r := by
          rw [hrender] at hr
          exact (Except.ok.injEq _ _ ▸ hr : r = r1).symm
        subst hr1
        rw [dictLookup_of_renderLoop_ok_not_mem eng tmpl model rest _ res x h hxr,
          dictLookup_dictSet_self]

theorem renderLoop_error_of_exists_error :
    ∀ (ids : List (Option Nat)) (results : List (Option Nat × String)),
      (∃ i ∈ ids, ∃ e, eng.renderRec tmpl (eng.fetch model i) = .error e) →
      ∃ e, renderLoop eng tmpl model ids results =
          .error (.userError ("Failed to render template : " ++ e)) ∧
        ∃ i ∈ ids, eng.renderRec tmpl (eng.fetch model i) = .error e := by
  intro ids
  induction ids with
  | nil =>
    intro results h
    obtain ⟨i, hi, _⟩ := h
    exact absurd hi (List.not_mem_nil i)
  | cons id rest ih =>
    intro results h
    cases hr : eng.renderRec tmpl (eng.fetch model id) with
    | error e =>
      refine ⟨e, ?_, id, List.mem_cons_self id rest, hr⟩
      rw [renderLoop, hr]
    | ok r =>
      have hrest : ∃ i ∈ rest, ∃ e, eng.renderRec tmpl (eng.fetch model i) = .error e := by
        obtain ⟨i, hi, e, he⟩ := h
        rcases List.mem_cons.mp hi with heq | hm
        · subst heq
          rw [hr] at he
          exact absurd he (by simp)
        · exact ⟨i, hm, e, he⟩
      obtain ⟨e, hloop, i, hi, he⟩ := ih (dictSet results id (collapseFalse r)) hrest
      refine ⟨e, ?_, i, List.mem_cons_of_mem id hi, he⟩
      rw [renderLoop, hr]
      exact hloop

end LoopLemmas

/-! ## Renderer-level helper lemmas -/

/-- When the template is empty or fails to compile, `_render_template_jinja`
returns the fromkeys dict unchanged, with at most one log entry. -/
theorem jinja_skip_eval {T R : Type} (eng : RenderEngine T R)
    (template_txt model : String) (res_ids : List (Option Nat))
    (h : template_txt = "" ∨ eng.compile template_txt = none) :
    render_template_jinja eng template_txt model res_ids =
      .ok ⟨dictFromKeys res_ids "",
        if template_txt = "" then []
        else ["Failed to load template " ++ template_txt]⟩ := by
  by_cases he : template_txt = ""
  · simp [render_template_jinja, he]
  · have hc : eng.compile template_txt = none := by
      rcases h with h1 | h2
      · exact absurd h1 he
      · exact h2
    simp [render_template_jinja, he, hc]

/-- Any successfully returned outcome of `_render_template_jinja` has
exactly the requested ids as keys, each id once. -/
theorem jinja_ok_keys {T R : Type} (eng : RenderEngine T R)
    (template_txt model : String) (res_ids : List (Option Nat)) (o : JinjaOutcome)
    (h : render_template_jinja eng template_txt model res_ids = .ok o) :
    (∀ x, x ∈ dictKeys o.results ↔ x ∈ res_ids) ∧ (dictKeys o.results).Nodup := by
  by_cases he : template_txt = ""
  · rw [jinja_skip_eval eng template_txt model res_ids (Or.inl he)] at h
    have ho : o.results = dictFromKeys res_ids "" := by
      cases h
      rfl
    rw [ho]
    exact ⟨fun x => mem_dictKeys_dictFromKeys res_ids "" x,
      nodup_dictKeys_dictFromKeys res_ids ""⟩
  · cases hc : eng.compile template_txt with
    | none =>
      rw [jinja_skip_eval eng template_txt model res_ids (Or.inr hc)] at h
      have ho : o.results = dictFromKeys res_ids "" := by
        cases h
        rfl
      rw [ho]
      exact ⟨fun x => mem_dictKeys_dictFromKeys res_ids "" x,
        nodup_dictKeys_dictFromKeys res_ids ""⟩
    | some tmpl =>
      rw [render_template_jinja] at h
      simp only [if_neg he, hc] at h
      by_cases hn : none ∈ res_ids
      · rw [if_pos hn] at h
        exact absurd h (by simp)
      · rw [if_neg hn] at h
        cases hloop : renderLoop eng tmpl model res_ids (dictFromKeys res_ids "") with
        | error e =>
          rw [hloop] at h
          exact absurd h (by simp)
        | ok res =>
          rw [hloop] at h
          have ho : o.results = res := by
            cases h
            rfl
          rw [ho]
          constructor
          · intro x
            rw [mem_dictKeys_of_renderLoop_ok eng tmpl model res_ids _ res hloop x]
            rw [mem_dictKeys_dictFromKeys]
            tauto
          · exact nodup_dictKeys_of_renderLoop_ok eng tmpl model res_ids _ res hloop
              (nodup_dictKeys_dictFromKeys res_ids "")

/-- The post-processing step preserves the keys of the rendered dict. -/
theorem dictKeys_postprocess {κ : Type} (repl : String → String) (d : List (κ × String)) :
    dictKeys (render_template_postprocess repl d) = dictKeys d := by
  simp [render_template_postprocess, dictKeys, List.map_map, Function.comp]

/-- The post-processing step rewrites each value pointwise through the
link-rewriting collaborator. -/
theorem dictLookup_postprocess {κ : Type} [DecidableEq κ] (repl : String → String)
    (d : List (κ × String)) (k : κ) :
    dictLookup (render_template_postprocess repl d) k = (dictLookup d k).map repl := by
  induction d with
  | nil => rfl
  | cons hd tl ih =>
    obtain ⟨k1, v1⟩ := hd
    by_cases h : k1 = k
    · subst h
      simp [render_template_postprocess, dictLookup]
    · simp only [render_template_postprocess, List.map_cons, dictLookup, if_neg h]
      simpa [render_template_postprocess] using ih

/-! ## Claim theorems -/

/-- C1: an attribute access on a name that starts with the private-marker
underscore is rejected with a forbidden-attribute evaluation error and never
returns the underlying bound value; a successful access implies the name is
public and the value is the bound one. -/
theorem C1_private_attribute_forbidden (o : BoundObject) (name : String) :
    (startsWithUnderscore name = true →
      getattr_sandboxed o name = .error .forbiddenAttribute) ∧
    (∀ v, getattr_sandboxed o name = .ok v →
      startsWithUnderscore name = false ∧ dictLookup o.attrs name = some v) := by
  constructor
  · intro h
    simp [getattr_sandboxed, h]
  · intro v hv
    by_cases h : startsWithUnderscore name
    · rw [getattr_sandboxed, if_pos h] at hv
      exact absurd hv (by simp)
    · refine ⟨by simpa using h, ?_⟩
      rw [getattr_sandboxed, if_neg h] at hv
      cases hl : dictLookup o.attrs name with
      | none => rw [hl] at hv; exact absurd hv (by simp)
      | some v1 =>
        rw [hl] at hv
        cases hv
        rfl

/-- C1 witness: the private attribute `_secret` of a concrete bound object
is rejected even though a value is bound under that name. -/
theorem C1_private_attribute_forbidden_witness :
    getattr_sandboxed ⟨[("_secret", "s"), ("name", "x")]⟩ "_secret" =
      .error .forbiddenAttribute :=
  (C1_private_attribute_forbidden ⟨[("_secret", "s"), ("name", "x")]⟩ "_secret").1 (by decide)

/-- C2 counterexample: a `res_ids` list containing a null entry does not
raise when the template text is empty — `_render_template` returns normally,
with the null entry mapped to the empty string, although the claim requires
an immediate validation error for a null entry. -/
theorem C2_counterexample_null_entry_not_rejected :
    render_template (constEngine "hello") id "" "res.partner" (.list [none]) "jinja" false =
      .ok [(none, "")] := rfl

/-- C2 amended: a scalar `res_ids` or an unsupported engine raises a
`ValueError` immediately, before any compilation, record fetch or rendering
(the result does not depend on the engine collaborators); a null entry in
`res_ids` raises a `ValueError` only when the template text is non-empty and
compiles, and then still before any record fetch or rendering. -/
theorem C2_validation_errors_raised_before_rendering {T R : Type}
    (eng : RenderEngine T R) (repl : String → String) (template_txt model : String) :
    (∀ (n : Nat) (engine : String) (pp : Bool),
      render_template eng repl template_txt model (.scalar n) engine pp =
        .error (.valueError
          "Template rendering should be called only using on a list of IDs.")) ∧
    (∀ (ids : List (Option Nat)) (engine : String) (pp : Bool), engine ≠ "jinja" →
      render_template eng repl template_txt model (.list ids) engine pp =
        .error (.valueError "Template rendering supports only jinja.")) ∧
    (∀ (ids : List (Option Nat)) (tmpl : T) (pp : Bool), template_txt ≠ "" →
      eng.compile template_txt = some tmpl → none ∈ ids →
      render_template eng repl template_txt model (.list ids) "jinja" pp =
        .error (.valueError "Unsuspected None")) := by
  refine ⟨fun n engine pp => rfl, ?_, ?_⟩
  · intro ids engine pp heng
    simp [render_template, heng]
  · intro ids tmpl pp hne hcomp hmem
    simp [render_template, render_template_jinja, hne, hcomp, hmem]

/-- C2 amended witness: each validation error at a concrete call. -/
theorem C2_validation_errors_raised_before_rendering_witness :
    (render_template (constEngine "hello") id "t" "res.partner" (.scalar 3) "jinja" false =
      .error (.valueError
        "Template rendering should be called only using on a list of IDs.")) ∧
    (render_template (constEngine "hello") id "t" "res.partner" (.list [some 1]) "mako" false =
      .error (.valueError "Template rendering supports only jinja.")) ∧
    (render_template (constEngine "hello") id "t" "res.partner" (.list [some 1, none]) "jinja"
        false = .error (.valueError "Unsuspected None")) :=
  ⟨(C2_validation_errors_raised_before_rendering (constEngine "hello") id "t" "res.partner").1
      3 "jinja" false,
    (C2_validation_errors_raised_before_rendering (constEngine "hello") id "t" "res.partner").2.1
      [some 1] "mako" false (by decide),
    (C2_validation_errors_raised_before_rendering (constEngine "hello") id "t" "res.partner").2.2
      [some 1, none] () false (by decide) rfl (by decide)⟩

/-- C3: whenever the template text is empty or the template fails to
compile, the renderer returns every requested id mapped to the empty string
(the untouched fromkeys dict, so no per-record evaluation happened) and the
compile failure is logged at most once, never surfaced as an error. -/
theorem C3_empty_or_uncompilable_template_yields_all_empty {T R : Type}
    (eng : RenderEngine T R) (template_txt model : String) (res_ids : List (Option Nat))
    (h : template_txt = "" ∨ eng.compile template_txt = none) :
    ∃ out, render_template_jinja eng template_txt model res_ids = .ok out ∧
      out.results = dictFromKeys res_ids "" ∧
      (∀ i ∈ res_ids, dictLookup out.results i = some "") ∧
      out.log.length ≤ 1 := by
  refine ⟨⟨dictFromKeys res_ids "",
    if template_txt = "" then [] else ["Failed to load template " ++ template_txt]⟩,
    jinja_skip_eval eng template_txt model res_ids h, rfl, ?_, ?_⟩
  · intro i hi
    rw [dictLookup_dictFromKeys]
    simp [hi]
  · by_cases he : template_txt = ""
    · simp [he]
    · simp [he]

/-- C3 witness: a template that fails to compile, over two record ids. -/
theorem C3_empty_or_uncompilable_template_yields_all_empty_witness :
    ∃ out, render_template_jinja noCompileEngine "bad <% template" "res.partner"
        [some 5, some 7] = .ok out ∧
      out.results = dictFromKeys [some 5, some 7] "" ∧
      (∀ i ∈ [some 5, some 7], dictLookup out.results i = some "") ∧
      out.log.length ≤ 1 :=
  C3_empty_or_uncompilable_template_yields_all_empty noCompileEngine "bad <% template"
    "res.partner" [some 5, some 7] (Or.inr rfl)

/-- C4: when per-record evaluation of a compiled template raises for some
record of the batch, the renderer raises a user-facing error built from the
underlying message; it returns no (partial) result dict for the batch. -/
theorem C4_eval_failure_aborts_batch {T R : Type} (eng : RenderEngine T R)
    (template_txt model : String) (ids : List (Option Nat)) (tmpl : T)
    (h1 : template_txt ≠ "") (h2 : eng.compile template_txt = some tmpl)
    (h3 : none ∉ ids)
    (h4 : ∃ i ∈ ids, ∃ e, eng.renderRec tmpl (eng.fetch model i) = .error e) :
    ∃ e, render_template_jinja eng template_txt model ids =
        .error (.userError ("Failed to render template : " ++ e)) ∧
      ∃ i ∈ ids, eng.renderRec tmpl (eng.fetch model i) = .error e := by
  obtain ⟨e, hloop, i, hi, he⟩ :=
    renderLoop_error_of_exists_error eng tmpl model ids (dictFromKeys ids "") h4
  refine ⟨e, ?_, i, hi, he⟩
  rw [render_template_jinja]
  simp only [if_neg h1, h2, if_neg h3]
  rw [hloop]

/-- C4 witness: one failing record aborts a concrete batch with the
underlying message embedded in the user-facing error. -/
theorem C4_eval_failure_aborts_batch_witness :
    ∃ e, render_template_jinja (failEngine "division by zero") "$\x7bobject.x\x7d" "res.partner"
        [some 1, some 2] =
        .error (.userError ("Failed to render template : " ++ e)) ∧
      ∃ i ∈ [some 1, some 2],
        (failEngine "division by zero").renderRec ()
          ((failEngine "division by zero").fetch "res.partner" i) = .error e :=
  C4_eval_failure_aborts_batch (failEngine "division by zero") "$\x7bobject.x\x7d" "res.partner"
    [some 1, some 2] () (by decide) rfl (by decide)
    ⟨some 1, by decide, "division by zero", rfl⟩

/-- C5: every value returned by the render entry point has exactly the
identifiers of the input list as keys — each appears once, bound to a
string — regardless of template, engine collaborators or post-processing. -/
theorem C5_result_keys_are_exactly_the_requested_ids {T R : Type} (eng : RenderEngine T R)
    (repl : String → String) (template_txt model : String) (ids : List (Option Nat))
    (engine : String) (post_process : Bool) (out : List (Option Nat × String))
    (h : render_template eng repl template_txt model (.list ids) engine post_process =
      .ok out) :
    (∀ i, i ∈ dictKeys out ↔ i ∈ ids) ∧ (dictKeys out).Nodup := by
  rw [render_template] at h
  by_cases heng : engine ≠ "jinja"
  · rw [if_pos heng] at h
    exact absurd h (by simp)
  · rw [if_neg heng] at h
    cases hj : render_template_jinja eng template_txt model ids with
    | error e =>
      rw [hj] at h
      exact absurd h (by simp)
    | ok o =>
      rw [hj] at h
      simp only [Except.ok.injEq] at h
      have hkeys := jinja_ok_keys eng template_txt model ids o hj
      have hk : dictKeys out = dictKeys o.results := by
        rw [← h]
        by_cases hp : post_process
        · simp [hp, dictKeys_postprocess]
        · simp [hp]
      rw [hk]
      exact hkeys

/-- C5 witness: a concrete successful render over two ids. -/
theorem C5_result_keys_are_exactly_the_requested_ids_witness :
    (some 1 ∈ dictKeys [(some 1, "hello"), (some 2, "hello")] ↔
      some 1 ∈ ([some 1, some 2] : List (Option Nat))) ∧
    (dictKeys [(some 1, "hello"), (some 2, "hello")]).Nodup :=
  ⟨(C5_result_keys_are_exactly_the_requested_ids (constEngine "hello") id "t" "res.partner"
      [some 1, some 2] "jinja" false [(some 1, "hello"), (some 2, "hello")] rfl).1 (some 1),
    (C5_result_keys_are_exactly_the_requested_ids (constEngine "hello") id "t" "res.partner"
      [some 1, some 2] "jinja" false [(some 1, "hello"), (some 2, "hello")] rfl).2⟩

/-- C6: the placeholder builder yields the empty string on an empty or
absent field name, and otherwise the expression rooted at `object`, with the
sub-field segment only when a sub-field is given and the fallback clause
only when a default is given, closed by the expression delimiter. -/
theorem C6_build_expression_examples :
    build_expression none none none = "" ∧
    build_expression (some "") none none = "" ∧
    build_expression (some "name") none none = "$\x7bobject.name\x7d" ∧
    build_expression (some "partner_id") (some "email") none =
      "$\x7bobject.partner_id.email\x7d" ∧
    build_expression (some "name") none (some "N/A") =
      "$\x7bobject.name or \x27\x27\x27N/A\x27\x27\x27\x7d" :=
  ⟨rfl, rfl, rfl, rfl, rfl⟩

/-- C7 counterexample: the default literal consisting of the single
expression-end delimiter character is embedded unescaped, so the generated
expression is not well delimited — the claimed safe quoting does not hold
for every input literal. -/
theorem C7_counterexample_unescaped_delimiter :
    wellDelimitedExpression (build_expression (some "name") none (some "\x7d")) = false := by
  decide

/-- C7 amended: the default literal is embedded verbatim between
triple-apostrophe quotes, with no escaping of delimiter-colliding
characters (so literals containing the expression-end delimiter or the
quote sequence yield ill-delimited expressions). -/
theorem C7_amended_default_literal_embedded_verbatim (f v : String)
    (hf : f ≠ "") (hv : v ≠ "") :
    (build_expression (some f) none (some v)).data =
      "$\x7bobject.".data ++ (f.data ++ (" or \x27\x27\x27".data ++
        (v.data ++ ("\x27\x27\x27".data ++ "\x7d".data)))) := by
  simp [build_expression, pyTruthy, hf, hv, String.data_append, List.append_assoc]

/-- C7 amended witness: the concrete default literal of the spec example is
embedded verbatim. -/
theorem C7_amended_default_literal_embedded_verbatim_witness :
    (build_expression (some "name") none (some "N/A")).data =
      "$\x7bobject.".data ++ ("name".data ++ (" or \x27\x27\x27".data ++
        ("N/A".data ++ ("\x27\x27\x27".data ++ "\x7d".data)))) :=
  C7_amended_default_literal_embedded_verbatim "name" "N/A" (by decide) (by decide)

/-- C8: in a successful batch, a record whose rendered output is the literal
string for false or the empty string ends up mapped to the empty string in
the final result. -/
theorem C8_false_like_result_collapses_to_empty {T R : Type} (eng : RenderEngine T R)
    (template_txt model : String) (ids : List (Option Nat)) (tmpl : T)
    (i : Option Nat) (r : String)
    (h1 : template_txt ≠ "") (h2 : eng.compile template_txt = some tmpl)
    (h3 : none ∉ ids)
    (hall : ∀ j ∈ ids, ∃ s, eng.renderRec tmpl (eng.fetch model j) = .ok s)
    (hi : i ∈ ids) (hr : eng.renderRec tmpl (eng.fetch model i) = .ok r)
    (hfl : r = "False" ∨ r = "") :
    ∃ out, render_template_jinja eng template_txt model ids = .ok out ∧
      dictLookup out.results i = some "" := by
  obtain ⟨res, hres⟩ := renderLoop_ok_of_all_ok eng tmpl model ids (dictFromKeys ids "") hall
  refine ⟨⟨res, []⟩, ?_, ?_⟩
  · rw [render_template_jinja]
    simp only [if_neg h1, h2, if_neg h3]
    rw [hres]
  · have hl := dictLookup_of_renderLoop_ok_mem eng tmpl model ids _ res i r hres hi hr
    have hcf : collapseFalse r = "" := by
      rcases hfl with h | h <;> simp [collapseFalse, h]
    rw [show (⟨res, []⟩ : JinjaOutcome).results = res from rfl, hl, hcf]

/-- C8 witness: a record rendering to the literal string for false is mapped
to the empty string in a concrete batch. -/
theorem C8_false_like_result_collapses_to_empty_witness :
    ∃ out, render_template_jinja (constEngine "False") "$\x7bobject.active\x7d" "res.partner"
        [some 1] = .ok out ∧
      dictLookup out.results (some 1) = some "" :=
  C8_false_like_result_collapses_to_empty (constEngine "False") "$\x7bobject.active\x7d"
    "res.partner" [some 1] () (some 1) "False" (by decide) rfl (by decide)
    (fun j _ => ⟨"False", rfl⟩) (by decide) rfl (Or.inl rfl)

/-- C9: the post-processor applies the external link-rewriting collaborator
to each rendered string independently, keeping exactly the same identifier
keys — no identifier altered, no entry added or removed. -/
theorem C9_postprocess_preserves_mapping_shape (repl : String → String)
    (rendered : List (Option Nat × String)) :
    dictKeys (render_template_postprocess repl rendered) = dictKeys rendered ∧
    ∀ k, dictLookup (render_template_postprocess repl rendered) k =
      (dictLookup rendered k).map repl :=
  ⟨dictKeys_postprocess repl rendered, fun k => dictLookup_postprocess repl rendered k⟩

/-- C10: with an empty or uncompilable template the null-identifier check is
skipped — a null entry in `res_ids` does not raise and appears as a key
bound to the empty string — and a `ValueError` can only arise when the
template text is non-empty and compiles. -/
theorem C10_null_check_only_on_compilable_nonempty_template {T R : Type}
    (eng : RenderEngine T R) (model : String) (res_ids : List (Option Nat))
    (hmem : none ∈ res_ids) :
    (∀ template_txt, (template_txt = "" ∨ eng.compile template_txt = none) →
      ∃ out, render_template_jinja eng template_txt model res_ids = .ok out ∧
        dictLookup out.results none = some "") ∧
    (∀ template_txt msg,
      render_template_jinja eng template_txt model res_ids = .error (.valueError msg) →
      template_txt ≠ "" ∧ (eng.compile template_txt).isSome = true) := by
  constructor
  · intro t ht
    refine ⟨⟨dictFromKeys res_ids "",
      if t = "" then [] else ["Failed to load template " ++ t]⟩,
      jinja_skip_eval eng t model res_ids ht, ?_⟩
    show dictLookup (dictFromKeys res_ids "") none = some ""
    rw [dictLookup_dictFromKeys]
    simp [hmem]
  · intro t msg h
    by_cases he : t = ""
    · rw [jinja_skip_eval eng t model res_ids (Or.inl he)] at h
      exact absurd h (by simp)
    · cases hc : eng.compile t with
      | none =>
        rw [jinja_skip_eval eng t model res_ids (Or.inr hc)] at h
        exact absurd h (by simp)
      | some tmpl => exact ⟨he, by simp [hc]⟩

/-- C10 witness: an empty template with a null entry returns normally, the
null entry bound to the empty string. -/
theorem C10_null_check_only_on_compilable_nonempty_template_witness :
    ∃ out, render_template_jinja (constEngine "hello") "" "res.partner" [none, some 1] =
        .ok out ∧
      dictLookup out.results none = some "" :=
  (C10_null_check_only_on_compilable_nonempty_template (constEngine "hello") "res.partner"
      [none, some 1] (by decide)).1 "" (Or.inl rfl)

end MailRender
